import Mathlib

/-!
Shallow embedding of the Rackspace Cloud Big Data Heat plugin
(`cloudbigdata/resources/cloud_big_data.py`, `cloudbigdata/cbd_client.py`,
`rackspace/cbd_client.py`).

Provider responses are modelled by a `Client` record holding the outcome of
each vendor-SDK endpoint for the call under scrutiny; each plugin operation is
a pure function of that record and returns, besides its Python result, the
list of provider calls it issued, so that statements about which endpoints
were touched can be made.  Vendor-SDK failures (`lavaclient.error`) form
`LavaErr`; exceptions the plugin itself can surface form `HeatExc`.
-/

/-- Errors of the vendor SDK (`lavaclient.error`): `RequestError`, carrying an
HTTP status code, is a subclass of `LavaError`; every other SDK failure is a
plain `LavaError` carrying a message. -/
inductive LavaErr where
  | requestError (code : Nat)
  | lavaError (msg : String)
deriving DecidableEq, Repr

/-- Exceptions surfaced by the plugin: SDK errors propagated as-is, plus the
orchestrator exception types `EntityNotFound` (raised by the cloudbigdata
variant of `get_flavor_id`) and `FlavorMissing` (raised by the rackspace
variant), which are distinct classes in `heat.common.exception`. -/
inductive HeatExc where
  | lava (e : LavaErr)
  | entityNotFound (entity : String) (name : String)
  | flavorMissing (flavor_id : String)
deriving DecidableEq, Repr

/-- Whether a surfaced exception is the `EntityNotFound` class. -/
def HeatExc.isEntityNotFound : HeatExc → Bool
  | .entityNotFound _ _ => true
  | _ => false

/-- One entry of the provider flavor listing. -/
structure Flavor where
  id : String
  name : String
deriving DecidableEq, Repr

/-- The provider cluster record, as read by the plugin (`cluster.id`,
`cluster.status`, `cluster.cbd_version`). -/
structure Cluster where
  id : String
  status : String
  cbd_version : String
deriving DecidableEq, Repr

/-- One node-group record as passed to the cluster create call. -/
structure NodeGroup where
  flavor_id : String
  count : Int
  id : String
deriving DecidableEq, Repr

/-- The resource properties consumed by `handle_create`, one field per entry
of `PROPERTIES` in `cloud_big_data.py`. -/
structure Props where
  clusterName : String
  stackId : String
  flavor : String
  numSlaveNodes : Int
  clusterLogin : String
  publicKeyName : String
  publicKey : String
deriving DecidableEq, Repr

/-- A provider call issued by the plugin, with the arguments it was given. -/
inductive CallRec where
  | createSshKey (name : String) (key : String)
  | flavorsList
  | clustersCreate (name : String) (stack_id : String) (username : String)
      (ssh_keys : List String) (node_groups : List NodeGroup)
  | clustersGet (id : String)
  | clustersDelete (id : String)
deriving DecidableEq, Repr

/-- Which provider calls mutate remote state; the flavor listing and the
cluster get are read-only. -/
def CallRec.isMutation : CallRec → Bool
  | .flavorsList => false
  | .clustersGet _ => false
  | _ => true

/-- The outcome each vendor-SDK endpoint would produce for the plugin call
under scrutiny. -/
structure Client where
  create_ssh_key : Except LavaErr Unit
  flavors_list : Except LavaErr (List Flavor)
  clusters_create : Except LavaErr Cluster
  clusters_get : Except LavaErr Cluster
  clusters_delete : Except LavaErr Unit

/-- `RackspaceCBDClientPlugin.is_not_found` (both variants):
`isinstance(exc, RequestError) and exc.code == 404`. -/
def is_not_found : LavaErr → Bool
  | .requestError code => code == 404
  | .lavaError _ => false

/-- The Heat framework helper `ClientPlugin.ignore_not_found`, as invoked on
this plugin: it re-raises the exception unless `is_not_found` accepts it. -/
def ignore_not_found (e : LavaErr) : Except LavaErr Unit :=
  if is_not_found e then Except.ok () else Except.error e

/-- The scan loop of `get_flavor_id` in `cloudbigdata/cbd_client.py`: the
first entry whose `name` or `id` equals the requested flavor wins (the loop
breaks at the first hit) and its `id` is returned. -/
def findFlavor (flavor : String) : List Flavor → Option String
  | [] => none
  | f :: rest =>
      if f.name = flavor ∨ f.id = flavor then some f.id
      else findFlavor flavor rest

/-- The scan loop of `get_flavor_id` in `rackspace/cbd_client.py`: only
`name` is compared. -/
def findFlavorByName (flavor : String) : List Flavor → Option String
  | [] => none
  | f :: rest =>
      if f.name = flavor then some f.id
      else findFlavorByName flavor rest

/-- `RackspaceCBDClientPlugin.get_flavor_id` in `cloudbigdata/cbd_client.py`:
list the flavors (an SDK error is logged and re-raised), scan for a name or
id match, and raise `EntityNotFound(entity='Flavor', name=flavor)` when no
entry matches. -/
def get_flavor_id (c : Client) (flavor : String) :
    Except HeatExc String × List CallRec :=
  match c.flavors_list with
  | .error e => (.error (.lava e), [.flavorsList])
  | .ok flavor_list =>
      match findFlavor flavor flavor_list with
      | some fid => (.ok fid, [.flavorsList])
      | none => (.error (.entityNotFound "Flavor" flavor), [.flavorsList])

/-- `RackspaceCBDClientPlugin.get_flavor_id` in `rackspace/cbd_client.py`:
same listing, but the loop matches on `name` only and a miss raises
`FlavorMissing(flavor_id=flavor)`. -/
def rackspace_get_flavor_id (c : Client) (flavor : String) :
    Except HeatExc String × List CallRec :=
  match c.flavors_list with
  | .error e => (.error (.lava e), [.flavorsList])
  | .ok flavor_list =>
      match findFlavorByName flavor flavor_list with
      | some fid => (.ok fid, [.flavorsList])
      | none => (.error (.flavorMissing flavor), [.flavorsList])

/-- `CloudBigData.handle_create`: first registers the SSH key under
`try ... except LavaError: pass`, so every SDK failure of that call is
swallowed (the match below has identical branches, mirroring the bare
`pass`); then resolves the flavor via `get_flavor_id` (its errors
propagate), builds the single node group `[{flavor_id, count:
numSlaveNodes, id: "slave"}]`, issues the cluster create (an SDK error is
logged and re-raised), and only on success runs `resource_id_set` with the
created cluster id.  `rid` is the resource id before the call; the middle
component of the result is the resource id afterwards. -/
def handle_create (c : Client) (p : Props) (rid : Option String) :
    Except HeatExc Unit × Option String × List CallRec :=
  let keyTrace : List CallRec := [.createSshKey p.publicKeyName p.publicKey]
  let rest :=
    match get_flavor_id c p.flavor with
    | (.error e, t) => (Except.error e, rid, keyTrace ++ t)
    | (.ok flavor_id, t) =>
        let node_group_list : List NodeGroup :=
          [⟨flavor_id, p.numSlaveNodes, "slave"⟩]
        let createCall : CallRec :=
          .clustersCreate p.clusterName p.stackId p.clusterLogin
            [p.publicKeyName] node_group_list
        match c.clusters_create with
        | .error e =>
            (Except.error (.lava e), rid, keyTrace ++ t ++ [createCall])
        | .ok cluster =>
            (Except.ok (), some cluster.id, keyTrace ++ t ++ [createCall])
  match c.create_ssh_key with
  | .ok _ => rest
  | .error _ => rest

/-- `CloudBigData.check_create_complete`: fetch the cluster
(`_show_resource` is `clusters.get(resource_id)`); a `RequestError` is the
only caught exception and only code 503 is retried (return `false`), any
other code re-raises; other SDK errors propagate uncaught; then status
ACTIVE is complete, status ERROR raises a `LavaError` naming the resource
id, and any other status returns `false`. -/
def check_create_complete (c : Client) (rid : String) :
    Except LavaErr Bool × List CallRec :=
  let t : List CallRec := [.clustersGet rid]
  match c.clusters_get with
  | .error (.requestError code) =>
      if code = 503 then (.ok false, t)
      else (.error (.requestError code), t)
  | .error e => (.error e, t)
  | .ok cluster =>
      if cluster.status = "ACTIVE" then (.ok true, t)
      else if cluster.status = "ERROR" then
        (.error (.lavaError ("Cluster " ++ rid ++ " entered an error state")),
         t)
      else (.ok false, t)

/-- `CloudBigData.handle_delete`: nothing happens when no resource id is
set; otherwise the delete call is issued and an SDK failure is passed to
`ignore_not_found`, which swallows a 404 `RequestError` and re-raises
anything else. -/
def handle_delete (c : Client) (rid : Option String) :
    Except LavaErr Unit × List CallRec :=
  match rid with
  | none => (.ok (), [])
  | some id =>
      match c.clusters_delete with
      | .ok _ => (.ok (), [.clustersDelete id])
      | .error e =>
          match ignore_not_found e with
          | .ok _ => (.ok (), [.clustersDelete id])
          | .error e2 => (.error e2, [.clustersDelete id])

/-- `CloudBigData.check_delete_complete`: `true` at once when the resource
id is `None`; otherwise fetch the cluster: a caught SDK failure goes through
`ignore_not_found` (404 means already gone, return `true`; anything else
re-raises), and a successful fetch means the cluster still exists, return
`false`. -/
def check_delete_complete (c : Client) (rid : Option String) :
    Except LavaErr Bool × List CallRec :=
  match rid with
  | none => (.ok true, [])
  | some id =>
      match c.clusters_get with
      | .ok _ => (.ok false, [.clustersGet id])
      | .error e =>
          match ignore_not_found e with
          | .ok _ => (.ok true, [.clustersGet id])
          | .error e2 => (.error e2, [.clustersGet id])

/-- `CloudBigData._resolve_attribute`: fetch the cluster; every SDK error is
caught, logged and turned into `None`; on success the attribute
`cbdVersion` yields `cluster.cbd_version` and any other name falls through
to `None`.  The embedding is total: no exception escapes. -/
def resolve_attribute (c : Client) (rid : String) (name : String) :
    Option String × List CallRec :=
  match c.clusters_get with
  | .error _ => (none, [.clustersGet rid])
  | .ok cluster =>
      (if name = "cbdVersion" then some cluster.cbd_version else none,
       [.clustersGet rid])

/-- If no entry matches on name or id, then none matches on name alone. -/
theorem findFlavorByName_eq_none (flavor : String) (fl : List Flavor)
    (h : findFlavor flavor fl = none) : findFlavorByName flavor fl = none := by
  induction fl with
  | nil => rfl
  | cons f rest ih =>
      simp only [findFlavor] at h
      by_cases hc : f.name = flavor ∨ f.id = flavor
      · rw [if_pos hc] at h
        exact absurd h (by simp)
      · rw [if_neg hc] at h
        simp only [findFlavorByName]
        rw [if_neg (fun hn => hc (Or.inl hn))]
        exact ih h

/-- Claim C1: while the resource is creating, `check_create_complete`
classifies the poll outcome as follows: a `RequestError` with code 503
returns `false` with no error (the only retryable condition), a
`RequestError` with any other code propagates, any other SDK error
propagates, cluster status ACTIVE returns `true`, status ERROR raises a
`LavaError` whose message names the resource identifier, and every other
status returns `false`. -/
theorem claim_C1 (c : Client) (rid : String) :
    (∀ code : Nat, c.clusters_get = .error (.requestError code) →
      (check_create_complete c rid).fst =
        if code = 503 then .ok false
        else .error (.requestError code)) ∧
    (∀ msg : String, c.clusters_get = .error (.lavaError msg) →
      (check_create_complete c rid).fst = .error (.lavaError msg)) ∧
    (∀ cl : Cluster, c.clusters_get = .ok cl →
      (check_create_complete c rid).fst =
        if cl.status = "ACTIVE" then .ok true
        else if cl.status = "ERROR" then
          .error
            (.lavaError ("Cluster " ++ rid ++ " entered an error state"))
        else .ok false) := by
  refine ⟨?_, ?_, ?_⟩ <;> intro x h <;> simp [check_create_complete, h] <;>
    split_ifs <;> rfl

/-- Witness for claim C1 at concrete poll outcomes: a 503 is retried, a 404
propagates, and status ERROR raises the error naming resource id r4. -/
theorem claim_C1_witness :
    (check_create_complete
      ⟨.ok (), .ok [], .ok ⟨"4", "ACTIVE", "2"⟩,
       .error (.requestError 503), .ok ()⟩ "r4").fst = .ok false ∧
    (check_create_complete
      ⟨.ok (), .ok [], .ok ⟨"4", "ACTIVE", "2"⟩,
       .error (.requestError 404), .ok ()⟩ "r4").fst =
      .error (.requestError 404) ∧
    (check_create_complete
      ⟨.ok (), .ok [], .ok ⟨"4", "ACTIVE", "2"⟩,
       .ok ⟨"4", "ERROR", "2"⟩, .ok ()⟩ "r4").fst =
      .error (.lavaError "Cluster r4 entered an error state") := by
  refine ⟨?_, ?_, ?_⟩
  · simpa using
      (claim_C1 ⟨.ok (), .ok [], .ok ⟨"4", "ACTIVE", "2"⟩,
        .error (.requestError 503), .ok ()⟩ "r4").1 503 rfl
  · simpa using
      (claim_C1 ⟨.ok (), .ok [], .ok ⟨"4", "ACTIVE", "2"⟩,
        .error (.requestError 404), .ok ()⟩ "r4").1 404 rfl
  · simpa using
      (claim_C1 ⟨.ok (), .ok [], .ok ⟨"4", "ACTIVE", "2"⟩,
        .ok ⟨"4", "ERROR", "2"⟩, .ok ()⟩ "r4").2.2 ⟨"4", "ERROR", "2"⟩ rfl

/-- Claim C2 (code bug in the rackspace variant): with a flavor list whose
single entry has id "hadoop1-7" and name "Small Hadoop Instance",
requesting the string "hadoop1-7" makes the cloudbigdata `get_flavor_id`
return that id, exactly as the claim states; the rackspace variant, whose
own docstring promises that a flavor id is accepted, compares names only
and raises `FlavorMissing` instead.  The third conjunct checks first-match
order in the cloudbigdata variant on a name/id collision across entries:
requesting "x" against entries (id "f-1", name "x") then (id "x", name
"f-2") yields "f-1", the id of the first matching entry. -/
theorem claim_C2 :
    (get_flavor_id
      ⟨.ok (), .ok [⟨"hadoop1-7", "Small Hadoop Instance"⟩],
       .ok ⟨"4", "ACTIVE", "2"⟩, .ok ⟨"4", "ACTIVE", "2"⟩, .ok ()⟩
      "hadoop1-7").fst = .ok "hadoop1-7" ∧
    (rackspace_get_flavor_id
      ⟨.ok (), .ok [⟨"hadoop1-7", "Small Hadoop Instance"⟩],
       .ok ⟨"4", "ACTIVE", "2"⟩, .ok ⟨"4", "ACTIVE", "2"⟩, .ok ()⟩
      "hadoop1-7").fst = .error (.flavorMissing "hadoop1-7") ∧
    (get_flavor_id
      ⟨.ok (), .ok [⟨"f-1", "x"⟩, ⟨"x", "f-2"⟩],
       .ok ⟨"4", "ACTIVE", "2"⟩, .ok ⟨"4", "ACTIVE", "2"⟩, .ok ()⟩
      "x").fst = .ok "f-1" := by
  refine ⟨?_, ?_, ?_⟩ <;>
    simp [get_flavor_id, rackspace_get_flavor_id, findFlavor, findFlavorByName]

/-- Claim C3, counterexample to the claim as stated: on a flavor list with
no matching entry, the rackspace variant of `get_flavor_id` fails with
`FlavorMissing`, which is not the `EntityNotFound` class the claim names. -/
theorem claim_C3_counterexample :
    (rackspace_get_flavor_id
      ⟨.ok (), .ok [⟨"hadoop1-15", "Medium Hadoop Instance"⟩],
       .ok ⟨"4", "ACTIVE", "2"⟩, .ok ⟨"4", "ACTIVE", "2"⟩, .ok ()⟩
      "tiny").fst = .error (.flavorMissing "tiny") ∧
    (HeatExc.flavorMissing "tiny").isEntityNotFound = false := by
  constructor
  · simp [rackspace_get_flavor_id, findFlavorByName]
  · rfl

/-- Claim C3 amended: on a flavor list with no entry matching on name or
id, the cloudbigdata `get_flavor_id` fails with `EntityNotFound` naming the
flavor while the rackspace variant fails with `FlavorMissing` naming the
flavor; in both, the only provider call issued is the read-only flavor
listing, so no remote mutation is performed. -/
theorem claim_C3 (c : Client) (flavor : String) (fl : List Flavor)
    (hl : c.flavors_list = .ok fl) (hm : findFlavor flavor fl = none) :
    get_flavor_id c flavor =
      (.error (.entityNotFound "Flavor" flavor), [.flavorsList]) ∧
    rackspace_get_flavor_id c flavor =
      (.error (.flavorMissing flavor), [.flavorsList]) ∧
    CallRec.flavorsList.isMutation = false := by
  have hn := findFlavorByName_eq_none flavor fl hm
  refine ⟨?_, ?_, rfl⟩ <;>
    simp [get_flavor_id, rackspace_get_flavor_id, hl, hm, hn]

/-- Witness for claim C3 at a concrete list with no matching entry. -/
theorem claim_C3_witness :
    get_flavor_id
      ⟨.ok (), .ok [⟨"hadoop1-15", "Medium Hadoop Instance"⟩],
       .ok ⟨"4", "ACTIVE", "2"⟩, .ok ⟨"4", "ACTIVE", "2"⟩, .ok ()⟩ "tiny" =
      (.error (.entityNotFound "Flavor" "tiny"), [.flavorsList]) ∧
    rackspace_get_flavor_id
      ⟨.ok (), .ok [⟨"hadoop1-15", "Medium Hadoop Instance"⟩],
       .ok ⟨"4", "ACTIVE", "2"⟩, .ok ⟨"4", "ACTIVE", "2"⟩, .ok ()⟩ "tiny" =
      (.error (.flavorMissing "tiny"), [.flavorsList]) ∧
    CallRec.flavorsList.isMutation = false :=
  claim_C3
    ⟨.ok (), .ok [⟨"hadoop1-15", "Medium Hadoop Instance"⟩],
     .ok ⟨"4", "ACTIVE", "2"⟩, .ok ⟨"4", "ACTIVE", "2"⟩, .ok ()⟩
    "tiny" [⟨"hadoop1-15", "Medium Hadoop Instance"⟩] rfl (by decide)

/-- Claim C4, counterexample to the claim as stated: an SSH-key
registration failure that is not "key already exists" (here a quota error)
is swallowed all the same, and `handle_create` still issues the cluster
create call and succeeds, contradicting the claim that any failure other
than key-already-exists aborts before the create call. -/
theorem claim_C4_counterexample :
    (handle_create
      ⟨.error (.lavaError "quota exceeded"),
       .ok [⟨"hadoop1-7", "Small Hadoop Instance"⟩],
       .ok ⟨"4", "BUILDING", "2"⟩, .ok ⟨"4", "ACTIVE", "2"⟩, .ok ()⟩
      ⟨"test", "HADOOP_HDP2_2", "Small Hadoop Instance", 3, "test_user",
       "testkey", "ssh-rsa AAAA"⟩ none).fst = .ok () ∧
    CallRec.clustersCreate "test" "HADOOP_HDP2_2" "test_user" ["testkey"]
        [⟨"hadoop1-7", 3, "slave"⟩] ∈
      (handle_create
        ⟨.error (.lavaError "quota exceeded"),
         .ok [⟨"hadoop1-7", "Small Hadoop Instance"⟩],
         .ok ⟨"4", "BUILDING", "2"⟩, .ok ⟨"4", "ACTIVE", "2"⟩, .ok ()⟩
        ⟨"test", "HADOOP_HDP2_2", "Small Hadoop Instance", 3, "test_user",
         "testkey", "ssh-rsa AAAA"⟩ none).snd.snd := by
  constructor
  · rfl
  · simp [handle_create, get_flavor_id, findFlavor]

/-- Claim C4 amended: `handle_create` registers the SSH key under
`except LavaError: pass`, so every SDK failure of that call — whatever its
cause — is swallowed and creation proceeds: the result, the resulting
resource id and the provider calls issued are all independent of the
key-call outcome.  Only the key registration itself cannot abort the
create. -/
theorem claim_C4 (c : Client) (p : Props) (rid : Option String)
    (k1 k2 : Except LavaErr Unit) :
    handle_create { c with create_ssh_key := k1 } p rid =
      handle_create { c with create_ssh_key := k2 } p rid := by
  cases k1 <;> cases k2 <;> rfl

/-- Claim C5, counterexample to the claim as stated: when the fetch fails
with an error that is not a 404 not-found (here a 500 `RequestError`),
`check_delete_complete` does not return `false` — it re-raises the error. -/
theorem claim_C5_counterexample :
    (check_delete_complete
      ⟨.ok (), .ok [], .ok ⟨"4", "ACTIVE", "2"⟩,
       .error (.requestError 500), .ok ()⟩ (some "4")).fst =
      .error (.requestError 500) ∧
    (check_delete_complete
      ⟨.ok (), .ok [], .ok ⟨"4", "ACTIVE", "2"⟩,
       .error (.requestError 500), .ok ()⟩ (some "4")).fst ≠ .ok false := by
  constructor
  · rfl
  · intro h
    rw [show (check_delete_complete
        ⟨.ok (), .ok [], .ok ⟨"4", "ACTIVE", "2"⟩,
         .error (.requestError 500), .ok ()⟩ (some "4")).fst =
        .error (.requestError 500) from rfl] at h
    exact absurd h (by simp)

/-- Claim C5 amended: `check_delete_complete` returns `true` at once when
the resource id is unset; with an id set, a successful fetch returns
`false`, a fetch failing with a 404 not-found returns `true`, and a fetch
failing with any other SDK error re-raises that error instead of returning
a boolean. -/
theorem claim_C5 (c : Client) (id : String) :
    check_delete_complete c none = (.ok true, []) ∧
    (∀ cl : Cluster, c.clusters_get = .ok cl →
      check_delete_complete c (some id) = (.ok false, [.clustersGet id])) ∧
    (∀ e : LavaErr, c.clusters_get = .error e → is_not_found e = true →
      check_delete_complete c (some id) = (.ok true, [.clustersGet id])) ∧
    (∀ e : LavaErr, c.clusters_get = .error e → is_not_found e = false →
      check_delete_complete c (some id) =
        (.error e, [.clustersGet id])) := by
  refine ⟨rfl, ?_, ?_, ?_⟩ <;> intro x h <;>
    simp [check_delete_complete, ignore_not_found, h]
  · intro hn
    simp [hn]
  · intro hn
    simp [hn]

/-- Witness for claim C5 at concrete fetch outcomes: unset id, successful
fetch, 404 failure and 500 failure. -/
theorem claim_C5_witness :
    check_delete_complete
      ⟨.ok (), .ok [], .ok ⟨"4", "ACTIVE", "2"⟩, .ok ⟨"4", "ACTIVE", "2"⟩,
       .ok ()⟩ none = (.ok true, []) ∧
    check_delete_complete
      ⟨.ok (), .ok [], .ok ⟨"4", "ACTIVE", "2"⟩, .ok ⟨"4", "ACTIVE", "2"⟩,
       .ok ()⟩ (some "4") = (.ok false, [.clustersGet "4"]) ∧
    check_delete_complete
      ⟨.ok (), .ok [], .ok ⟨"4", "ACTIVE", "2"⟩,
       .error (.requestError 404), .ok ()⟩ (some "4") =
      (.ok true, [.clustersGet "4"]) ∧
    check_delete_complete
      ⟨.ok (), .ok [], .ok ⟨"4", "ACTIVE", "2"⟩,
       .error (.requestError 500), .ok ()⟩ (some "4") =
      (.error (.requestError 500), [.clustersGet "4"]) := by
  refine ⟨?_, ?_, ?_, ?_⟩
  · exact (claim_C5 ⟨.ok (), .ok [], .ok ⟨"4", "ACTIVE", "2"⟩,
      .ok ⟨"4", "ACTIVE", "2"⟩, .ok ()⟩ "4").1
  · exact (claim_C5 ⟨.ok (), .ok [], .ok ⟨"4", "ACTIVE", "2"⟩,
      .ok ⟨"4", "ACTIVE", "2"⟩, .ok ()⟩ "4").2.1 ⟨"4", "ACTIVE", "2"⟩ rfl
  · exact (claim_C5 ⟨.ok (), .ok [], .ok ⟨"4", "ACTIVE", "2"⟩,
      .error (.requestError 404), .ok ()⟩ "4").2.2.1
      (.requestError 404) rfl rfl
  · exact (claim_C5 ⟨.ok (), .ok [], .ok ⟨"4", "ACTIVE", "2"⟩,
      .error (.requestError 500), .ok ()⟩ "4").2.2.2
      (.requestError 500) rfl rfl

/-- Claim C6: `handle_delete` succeeds as a no-op, issuing no provider call
at all, when the resource id is unset; with an id set it issues exactly the
delete call, treats a 404 not-found failure as success (idempotent delete),
and re-raises any other SDK error. -/
theorem claim_C6 (c : Client) (id : String) :
    handle_delete c none = (.ok (), []) ∧
    (c.clusters_delete = .ok () →
      handle_delete c (some id) = (.ok (), [.clustersDelete id])) ∧
    (∀ e : LavaErr, c.clusters_delete = .error e → is_not_found e = true →
      handle_delete c (some id) = (.ok (), [.clustersDelete id])) ∧
    (∀ e : LavaErr, c.clusters_delete = .error e → is_not_found e = false →
      handle_delete c (some id) = (.error e, [.clustersDelete id])) := by
  refine ⟨rfl, ?_, ?_, ?_⟩
  · intro h
    simp [handle_delete, h]
  · intro e h hn
    simp [handle_delete, ignore_not_found, h, hn]
  · intro e h hn
    simp [handle_delete, ignore_not_found, h, hn]

/-- Witness for claim C6 at concrete delete outcomes: unset id, successful
delete, 404 failure and 500 failure. -/
theorem claim_C6_witness :
    handle_delete
      ⟨.ok (), .ok [], .ok ⟨"4", "ACTIVE", "2"⟩, .ok ⟨"4", "ACTIVE", "2"⟩,
       .ok ()⟩ none = (.ok (), []) ∧
    handle_delete
      ⟨.ok (), .ok [], .ok ⟨"4", "ACTIVE", "2"⟩, .ok ⟨"4", "ACTIVE", "2"⟩,
       .ok ()⟩ (some "4") = (.ok (), [.clustersDelete "4"]) ∧
    handle_delete
      ⟨.ok (), .ok [], .ok ⟨"4", "ACTIVE", "2"⟩, .ok ⟨"4", "ACTIVE", "2"⟩,
       .error (.requestError 404)⟩ (some "4") =
      (.ok (), [.clustersDelete "4"]) ∧
    handle_delete
      ⟨.ok (), .ok [], .ok ⟨"4", "ACTIVE", "2"⟩, .ok ⟨"4", "ACTIVE", "2"⟩,
       .error (.lavaError "boom")⟩ (some "4") =
      (.error (.lavaError "boom"), [.clustersDelete "4"]) := by
  refine ⟨?_, ?_, ?_, ?_⟩
  · exact (claim_C6 ⟨.ok (), .ok [], .ok ⟨"4", "ACTIVE", "2"⟩,
      .ok ⟨"4", "ACTIVE", "2"⟩, .ok ()⟩ "4").1
  · exact (claim_C6 ⟨.ok (), .ok [], .ok ⟨"4", "ACTIVE", "2"⟩,
      .ok ⟨"4", "ACTIVE", "2"⟩, .ok ()⟩ "4").2.1 rfl
  · exact (claim_C6 ⟨.ok (), .ok [], .ok ⟨"4", "ACTIVE", "2"⟩,
      .ok ⟨"4", "ACTIVE", "2"⟩, .error (.requestError 404)⟩ "4").2.2.1
      (.requestError 404) rfl rfl
  · exact (claim_C6 ⟨.ok (), .ok [], .ok ⟨"4", "ACTIVE", "2"⟩,
      .ok ⟨"4", "ACTIVE", "2"⟩, .error (.lavaError "boom")⟩ "4").2.2.2
      (.lavaError "boom") rfl rfl

/-- Claim C7 (generalized): whenever the flavor listing succeeds, the scan
resolves the requested flavor to `fid`, and the cluster create succeeds,
`handle_create` issues exactly the calls SSH-key registration, flavor
listing, and one cluster create carrying exactly one node-group entry
`{flavor_id: fid, count: numSlaveNodes, id: "slave"}` with the node count
copied verbatim from the properties, and sets the resource id from the
create response.  The claim is the instance fid = "hadoop1-7",
numSlaveNodes = 3. -/
theorem claim_C7 (c : Client) (p : Props) (rid : Option String)
    (fl : List Flavor) (fid : String) (cl : Cluster)
    (hl : c.flavors_list = .ok fl)
    (hf : findFlavor p.flavor fl = some fid)
    (hc : c.clusters_create = .ok cl) :
    handle_create c p rid =
      (.ok (), some cl.id,
       [.createSshKey p.publicKeyName p.publicKey, .flavorsList,
        .clustersCreate p.clusterName p.stackId p.clusterLogin
          [p.publicKeyName] [⟨fid, p.numSlaveNodes, "slave"⟩]]) := by
  cases hk : c.create_ssh_key <;>
    simp [handle_create, get_flavor_id, hl, hf, hc, hk]

/-- Witness for claim C7 at the inputs of the claim: flavor name
"Small Hadoop Instance" resolving to id "hadoop1-7", node count 3, create
response with cluster id "4". -/
theorem claim_C7_witness :
    handle_create
      ⟨.ok (), .ok [⟨"hadoop1-7", "Small Hadoop Instance"⟩],
       .ok ⟨"4", "BUILDING", "2"⟩, .ok ⟨"4", "ACTIVE", "2"⟩, .ok ()⟩
      ⟨"test", "HADOOP_HDP2_2", "Small Hadoop Instance", 3, "test_user",
       "testkey", "ssh-rsa AAAA"⟩ none =
      (.ok (), some "4",
       [.createSshKey "testkey" "ssh-rsa AAAA", .flavorsList,
        .clustersCreate "test" "HADOOP_HDP2_2" "test_user" ["testkey"]
          [⟨"hadoop1-7", 3, "slave"⟩]]) :=
  claim_C7
    ⟨.ok (), .ok [⟨"hadoop1-7", "Small Hadoop Instance"⟩],
     .ok ⟨"4", "BUILDING", "2"⟩, .ok ⟨"4", "ACTIVE", "2"⟩, .ok ()⟩
    ⟨"test", "HADOOP_HDP2_2", "Small Hadoop Instance", 3, "test_user",
     "testkey", "ssh-rsa AAAA"⟩ none
    [⟨"hadoop1-7", "Small Hadoop Instance"⟩] "hadoop1-7"
    ⟨"4", "BUILDING", "2"⟩ rfl (by decide) rfl

/-- Claim C8, counterexample to the claim as stated: with a provider that
answers every call successfully, a first `handle_create` succeeds and sets
resource id "5"; invoking `handle_create` again immediately, with that id in
place, is not rejected: it succeeds again and issues a second cluster
create call.  No phase guard exists inside `handle_create`. -/
theorem claim_C8_counterexample :
    handle_create
      ⟨.ok (), .ok [⟨"hadoop1-7", "Small Hadoop Instance"⟩],
       .ok ⟨"5", "BUILDING", "2"⟩, .ok ⟨"5", "ACTIVE", "2"⟩, .ok ()⟩
      ⟨"test", "HADOOP_HDP2_2", "Small Hadoop Instance", 3, "test_user",
       "testkey", "ssh-rsa AAAA"⟩ none =
      (.ok (), some "5",
       [.createSshKey "testkey" "ssh-rsa AAAA", .flavorsList,
        .clustersCreate "test" "HADOOP_HDP2_2" "test_user" ["testkey"]
          [⟨"hadoop1-7", 3, "slave"⟩]]) ∧
    (handle_create
      ⟨.ok (), .ok [⟨"hadoop1-7", "Small Hadoop Instance"⟩],
       .ok ⟨"5", "BUILDING", "2"⟩, .ok ⟨"5", "ACTIVE", "2"⟩, .ok ()⟩
      ⟨"test", "HADOOP_HDP2_2", "Small Hadoop Instance", 3, "test_user",
       "testkey", "ssh-rsa AAAA"⟩ (some "5")).fst = .ok () ∧
    CallRec.clustersCreate "test" "HADOOP_HDP2_2" "test_user" ["testkey"]
        [⟨"hadoop1-7", 3, "slave"⟩] ∈
      (handle_create
        ⟨.ok (), .ok [⟨"hadoop1-7", "Small Hadoop Instance"⟩],
         .ok ⟨"5", "BUILDING", "2"⟩, .ok ⟨"5", "ACTIVE", "2"⟩, .ok ()⟩
        ⟨"test", "HADOOP_HDP2_2", "Small Hadoop Instance", 3, "test_user",
         "testkey", "ssh-rsa AAAA"⟩ (some "5")).snd.snd := by
  refine ⟨rfl, rfl, ?_⟩
  simp [handle_create, get_flavor_id, findFlavor]

/-- Claim C8 amended: `handle_create` consults no phase guard: its Python
result and the provider calls it issues are independent of the resource id
already in place, so a second invocation immediately after a first proceeds
exactly as the first did instead of being rejected.  Any double-create
rejection lives in the hosting orchestration engine, not in this plugin. -/
theorem claim_C8 (c : Client) (p : Props) (r1 r2 : Option String) :
    (handle_create c p r1).fst = (handle_create c p r2).fst ∧
    (handle_create c p r1).snd.snd = (handle_create c p r2).snd.snd := by
  unfold handle_create
  rcases hg : get_flavor_id c p.flavor with ⟨res, t⟩
  cases hk : c.create_ssh_key <;> cases res <;>
    cases hc : c.clusters_create <;> simp [hg, hc]

/-- Claim C9: attribute resolution is best-effort: whenever the fetch of
the remote record fails (every SDK error the fetch can raise is caught),
`resolve_attribute` returns `none` rather than an error, for every
attribute name.  The embedding of `_resolve_attribute` is total — no
exception escapes it — so it cannot abort the owning workflow. -/
theorem claim_C9 (c : Client) (rid name : String) (e : LavaErr)
    (h : c.clusters_get = .error e) :
    (resolve_attribute c rid name).fst = none := by
  simp [resolve_attribute, h]

/-- Witness for claim C9: a failed fetch yields `none` for the cbdVersion
attribute. -/
theorem claim_C9_witness :
    (resolve_attribute
      ⟨.ok (), .ok [], .ok ⟨"4", "ACTIVE", "2"⟩,
       .error (.lavaError "boom"), .ok ()⟩ "4" "cbdVersion").fst = none :=
  claim_C9
    ⟨.ok (), .ok [], .ok ⟨"4", "ACTIVE", "2"⟩,
     .error (.lavaError "boom"), .ok ()⟩ "4" "cbdVersion"
    (.lavaError "boom") rfl

/-- Claim C10: whenever `handle_create` raises — flavor resolution failed
or the cluster create call failed — the resource id stays unset:
`resource_id_set` runs only after a successful create. -/
theorem claim_C10 (c : Client) (p : Props) (e : HeatExc)
    (h : (handle_create c p none).fst = .error e) :
    (handle_create c p none).snd.fst = none := by
  unfold handle_create at h ⊢
  rcases hg : get_flavor_id c p.flavor with ⟨res, t⟩
  cases hk : c.create_ssh_key <;> cases res <;>
    cases hc : c.clusters_create <;> simp_all [hg, hc]

/-- Witness for claim C10: with an empty flavor list the create raises
`EntityNotFound` and the resource id stays unset. -/
theorem claim_C10_witness :
    (handle_create
      ⟨.ok (), .ok [], .ok ⟨"4", "BUILDING", "2"⟩, .ok ⟨"4", "ACTIVE", "2"⟩,
       .ok ()⟩
      ⟨"test", "HADOOP_HDP2_2", "Small Hadoop Instance", 3, "test_user",
       "testkey", "ssh-rsa AAAA"⟩ none).fst =
      .error (.entityNotFound "Flavor" "Small Hadoop Instance") ∧
    (handle_create
      ⟨.ok (), .ok [], .ok ⟨"4", "BUILDING", "2"⟩, .ok ⟨"4", "ACTIVE", "2"⟩,
       .ok ()⟩
      ⟨"test", "HADOOP_HDP2_2", "Small Hadoop Instance", 3, "test_user",
       "testkey", "ssh-rsa AAAA"⟩ none).snd.fst = none :=
  ⟨rfl,
   claim_C10
     ⟨.ok (), .ok [], .ok ⟨"4", "BUILDING", "2"⟩, .ok ⟨"4", "ACTIVE", "2"⟩,
      .ok ()⟩
     ⟨"test", "HADOOP_HDP2_2", "Small Hadoop Instance", 3, "test_user",
      "testkey", "ssh-rsa AAAA"⟩
     (.entityNotFound "Flavor" "Small Hadoop Instance") rfl⟩
